import Mathlib

/-!
Shallow embedding of the adaptive render-scale controller of
`packages/model-viewer/src/three-components/Renderer.ts`.

The controller state is the subset of the `Renderer` class fields that the
frame timer, the smoothed-duration estimator, the scale-step selector and
the canvas/viewport resizer read or write: `lastTick`, `scaleStep`,
`lastStep`, `avgFrameDuration`, the cached union size `width`/`height`,
the cached device pixel ratio `dpr`, the availability/presentation flags,
the shared 3D canvas sizes and the per-scene canvas sizes.

JavaScript numbers are modelled as exact rationals (`ℚ`); the integer step
indices as `ℤ` (so that the lower bound `0 ≤ scaleStep` is a theorem, not a
typing artifact).  External inputs (the high-resolution timestamp, the
result of `resolveDpr()`, the presence of an XR frame) are parameters.
-/

namespace ModelViewer

/-- Constant `DURATION_DECAY = 0.2` (Renderer.ts line 47). -/
def DURATION_DECAY : ℚ := 1/5

/-- Constant `LOW_FRAME_DURATION_MS = 18` (Renderer.ts line 48). -/
def LOW_FRAME_DURATION_MS : ℚ := 18

/-- Constant `HIGH_FRAME_DURATION_MS = 26` (Renderer.ts line 49). -/
def HIGH_FRAME_DURATION_MS : ℚ := 26

/-- Constant `MAX_AVG_CHANGE_MS = 2` (Renderer.ts line 50). -/
def MAX_AVG_CHANGE_MS : ℚ := 2

/-- Table `SCALE_STEPS = [1, 0.79, 0.62, 0.5, 0.4, 0.31, 0.25]` (Renderer.ts line 51). -/
def SCALE_STEPS : List ℚ := [1, 79/100, 62/100, 1/2, 2/5, 31/100, 1/4]

/-- Constant `DEFAULT_LAST_STEP = 3` (Renderer.ts line 52). -/
def DEFAULT_LAST_STEP : ℤ := 3

/-- Modelled from the spec: `clamp` is imported from `utilities.js`, which is
not among the provided sources; the spec describes it as
`clamped = clamp(raw, -MAX_CHANGE, MAX_CHANGE)`, the usual restriction of a
value to a closed interval. -/
def clamp (value lowerLimit upperLimit : ℚ) : ℚ :=
  max lowerLimit (min value upperLimit)

/-- One registered `ModelScene`, restricted to the size fields the renderer
mutates: the logical element size (`scene.width`/`scene.height`), the 2D
canvas backing-store size (`canvas.width`/`canvas.height`, integers), the
canvas CSS display size (`canvas.style.width`/`height`, in CSS px) and the
`isDirty` redraw flag. -/
structure SceneState where
  width : ℚ
  height : ℚ
  canvasWidth : ℤ
  canvasHeight : ℤ
  styleWidth : ℚ
  styleHeight : ℚ
  isDirty : Bool
  deriving Repr, DecidableEq

/-- The controller-relevant fields of the `Renderer` class.
`canRender` stands for `threeRenderer != null`; `isPresenting` for
`arRenderer.isPresenting`.  `canvas3DWidth`/`canvas3DHeight` are the shared
WebGL canvas backing-store size as set by `threeRenderer.setSize`, and
`canvas3DStyleWidth`/`canvas3DStyleHeight` its CSS display size. -/
structure RendererState where
  lastTick : ℚ
  scaleStep : ℤ
  lastStep : ℤ
  avgFrameDuration : ℚ
  width : ℚ
  height : ℚ
  dpr : ℚ
  canRender : Bool
  isPresenting : Bool
  canvas3DWidth : ℚ
  canvas3DHeight : ℚ
  canvas3DStyleWidth : ℚ
  canvas3DStyleHeight : ℚ
  scenes : List SceneState
  deriving Repr, DecidableEq

/-- Getter `scaleFactor`, returning `SCALE_STEPS[this.scaleStep]`
(Renderer.ts lines 598-600).  The index is within bounds whenever the
`0 ≤ scaleStep ≤ lastStep ≤ 6` invariant holds; out-of-bounds is defaulted. -/
def scaleFactor (st : RendererState) : ℚ :=
  SCALE_STEPS.getD st.scaleStep.toNat 0

/-- The `while` loop of the `minScale` setter (Renderer.ts lines 603-609):
starting at `i = 1`, advance while `i < SCALE_STEPS.length` and
`SCALE_STEPS[i] >= scale`, and return the first `i` with
`SCALE_STEPS[i] < scale` (or `SCALE_STEPS.length` when none). -/
def minScaleLoop (scale : ℚ) (i : ℕ) : ℕ :=
  if h : i < SCALE_STEPS.length then
    if SCALE_STEPS.getD i 0 < scale then i
    else minScaleLoop scale (i + 1)
  else i
termination_by SCALE_STEPS.length - i
decreasing_by omega

/-- Setter `minScale(scale)` (Renderer.ts lines 602-611): walk the table from
index 1 and set `lastStep = i - 1` for the first `i` whose entry is below
`scale`. -/
def minScale (scale : ℚ) (st : RendererState) : RendererState :=
  { st with lastStep := (minScaleLoop scale 1 : ℤ) - 1 }

/-- Method `updateRendererSize` (Renderer.ts lines 666-717).  `newDpr` is the value
returned by `resolveDpr()`.  The `element[$updateSize]` notification on a
dpr change touches only the host elements' layout, none of the fields
modelled here.  The union size is the max over registered scenes (starting
from 0); on early return nothing changes; otherwise the cached size and dpr
are updated, `threeRenderer.setSize(width * dpr, height * dpr)` runs when
the renderer exists, and every scene canvas gets the rounded union
backing-store size and the union CSS size `width / scaleFactor`. -/
def updateRendererSize (newDpr : ℚ) (st : RendererState) : RendererState :=
  let width := st.scenes.foldl (fun w s => max w s.width) 0
  let height := st.scenes.foldl (fun h s => max h s.height) 0
  if width = st.width ∧ height = st.height ∧ newDpr = st.dpr then st
  else
    let st1 := { st with width := width, height := height, dpr := newDpr }
    let st2 :=
      if st1.canRender then
        { st1 with canvas3DWidth := width * newDpr,
                   canvas3DHeight := height * newDpr }
      else st1
    let widthCSS := width / scaleFactor st2
    let heightCSS := height / scaleFactor st2
    { st2 with
      canvas3DStyleWidth := widthCSS,
      canvas3DStyleHeight := heightCSS,
      scenes := st2.scenes.map fun s =>
        { s with
          canvasWidth := round (width * newDpr),
          canvasHeight := round (height * newDpr),
          styleWidth := widthCSS,
          styleHeight := heightCSS,
          isDirty := true } }

/-- Method `updateRendererScale` (Renderer.ts lines 719-747): the scale-step
selector.  Remember the incoming step; raise it when the average exceeds
`HIGH_FRAME_DURATION_MS` and it is below `lastStep`, else lower it when the
average is below `LOW_FRAME_DURATION_MS` and it is positive.  When the step
changed, reset the average to the threshold midpoint and restyle the shared
canvas and every scene canvas to `width / scaleFactor`. -/
def updateRendererScale (st : RendererState) : RendererState :=
  let scaleStep := st.scaleStep
  let st1 :=
    if HIGH_FRAME_DURATION_MS < st.avgFrameDuration ∧ st.scaleStep < st.lastStep then
      { st with scaleStep := st.scaleStep + 1 }
    else if st.avgFrameDuration < LOW_FRAME_DURATION_MS ∧ 0 < st.scaleStep then
      { st with scaleStep := st.scaleStep - 1 }
    else st
  if scaleStep = st1.scaleStep then st1
  else
    let st2 := { st1 with
      avgFrameDuration := (HIGH_FRAME_DURATION_MS + LOW_FRAME_DURATION_MS) / 2 }
    let width := st2.width / scaleFactor st2
    let height := st2.height / scaleFactor st2
    { st2 with
      canvas3DStyleWidth := width,
      canvas3DStyleHeight := height,
      scenes := st2.scenes.map fun s =>
        { s with styleWidth := width, styleHeight := height, isDirty := true } }

/-- The smoothed-duration estimator statement of `render`
(Renderer.ts lines 943-946):
`avgFrameDuration += clamp(DURATION_DECAY * (delta - avgFrameDuration),
-MAX_AVG_CHANGE_MS, MAX_AVG_CHANGE_MS)`. -/
def estimatorUpdate (avg delta : ℚ) : ℚ :=
  avg + clamp (DURATION_DECAY * (delta - avg)) (-MAX_AVG_CHANGE_MS) MAX_AVG_CHANGE_MS

/-- Method `render(t, frame)` (Renderer.ts lines 930-1022), restricted to the
modelled fields.  A non-null XR frame is delegated to `arRenderer` and
returns before anything else; otherwise the frame timer runs
(`delta = t - lastTick; lastTick = t`), then the tick returns if the
renderer is unavailable or AR is presenting, else the estimator, the
resizer and the selector run in order.  `selectCanvas()` and the per-scene
draw loop only reparent canvases, toggle CSS classes and maintain
dirty/render counters; they touch none of the modelled size or controller
fields, so they are not represented.  `newDpr` is this tick's
`resolveDpr()` result. -/
def render (t : ℚ) (frame : Option Unit) (newDpr : ℚ)
    (st : RendererState) : RendererState :=
  if frame.isSome then st
  else
    let delta := t - st.lastTick
    let st1 := { st with lastTick := t }
    if ¬st1.canRender ∨ st1.isPresenting then st1
    else
      let st2 := { st1 with
        avgFrameDuration := estimatorUpdate st1.avgFrameDuration delta }
      updateRendererScale (updateRendererSize newDpr st2)

/-- The class field initializers (Renderer.ts lines 586-592, 106-108):
`scaleStep = 0`, `lastStep = DEFAULT_LAST_STEP`,
`avgFrameDuration = (HIGH_FRAME_DURATION_MS + LOW_FRAME_DURATION_MS) / 2`,
`width = 0`, `height = 0`, `dpr = 1`, no scenes.  `lastTick` has no
initializer (it is definitely assigned in the constructor); it is given a
placeholder 0 here. -/
def rendererFieldInit (canRender0 : Bool) : RendererState :=
  { lastTick := 0
    scaleStep := 0
    lastStep := DEFAULT_LAST_STEP
    avgFrameDuration := (HIGH_FRAME_DURATION_MS + LOW_FRAME_DURATION_MS) / 2
    width := 0
    height := 0
    dpr := 1
    canRender := canRender0
    isPresenting := false
    canvas3DWidth := 0
    canvas3DHeight := 0
    canvas3DStyleWidth := 0
    canvas3DStyleHeight := 0
    scenes := [] }

/-- The constructor (Renderer.ts lines 613-660), restricted to the modelled
fields: after the field initializers it sets `dpr = resolveDpr()`
(line 616), attempts to create the WebGL renderer (success recorded in
`canRender0`), runs `updateRendererSize()`, sets
`lastTick = performance.now()` (`now`) and finally sets
`avgFrameDuration = 0` (line 659), overwriting the field initializer. -/
def rendererConstruct (now dpr0 : ℚ) (canRender0 : Bool) : RendererState :=
  let st := { rendererFieldInit canRender0 with dpr := dpr0 }
  let st := updateRendererSize dpr0 st
  { st with lastTick := now, avgFrameDuration := 0 }

/-- Fold `render` over a list of per-tick inputs
`(timestamp, XR frame, resolveDpr result)`. -/
def renderRun (inputs : List (ℚ × Option Unit × ℚ)) (st : RendererState) :
    RendererState :=
  inputs.foldl (fun s i => render i.1 i.2.1 i.2.2 s) st

/-- The frame deltas a run over timestamps `ts` observes, starting from a
given `lastTick`: `delta = t - lastTick` at each tick, `lastTick := t`. -/
def deltasFrom (lastTick : ℚ) : List ℚ → List ℚ
  | [] => []
  | t :: ts => (t - lastTick) :: deltasFrom t ts

/-! ### Basic lemmas about the embedded operations -/

theorem clamp_le (v lo hi : ℚ) (h : lo ≤ hi) : clamp v lo hi ≤ hi := by
  simp only [clamp]
  exact max_le h (min_le_right v hi)

theorem le_clamp (v lo hi : ℚ) : lo ≤ clamp v lo hi :=
  le_max_left lo (min v hi)

theorem abs_estimatorUpdate_sub_le (avg delta : ℚ) :
    |estimatorUpdate avg delta - avg| ≤ MAX_AVG_CHANGE_MS := by
  have h1 := le_clamp (DURATION_DECAY * (delta - avg))
    (-MAX_AVG_CHANGE_MS) MAX_AVG_CHANGE_MS
  have h2 := clamp_le (DURATION_DECAY * (delta - avg))
    (-MAX_AVG_CHANGE_MS) MAX_AVG_CHANGE_MS (by norm_num [MAX_AVG_CHANGE_MS])
  rw [abs_le]
  constructor <;> simp only [estimatorUpdate] <;> linarith

/-- One estimator update moves the average toward the new delta and never
past it: the result lies between the old average and the delta. -/
theorem estimatorUpdate_between (avg delta : ℚ) :
    min avg delta ≤ estimatorUpdate avg delta ∧
      estimatorUpdate avg delta ≤ max avg delta := by
  simp only [estimatorUpdate, clamp, DURATION_DECAY, MAX_AVG_CHANGE_MS]
  rcases le_total avg delta with h | h
  · have hx : (0:ℚ) ≤ 1/5 * (delta - avg) := by linarith
    have hmin : (0:ℚ) ≤ min (1/5 * (delta - avg)) 2 :=
      le_min hx (by norm_num)
    have hmax : max (-2 : ℚ) (min (1/5 * (delta - avg)) 2) =
        min (1/5 * (delta - avg)) 2 :=
      max_eq_right (by linarith)
    have hub : min (1/5 * (delta - avg)) 2 ≤ 1/5 * (delta - avg) :=
      min_le_left _ _
    rw [hmax]
    constructor
    · calc min avg delta ≤ avg := min_le_left _ _
        _ ≤ avg + min (1/5 * (delta - avg)) 2 := by linarith
    · have : avg + min (1/5 * (delta - avg)) 2 ≤ delta := by linarith
      exact this.trans (le_max_right _ _)
  · have hx : 1/5 * (delta - avg) ≤ (0:ℚ) := by linarith
    have hmin : min (1/5 * (delta - avg)) 2 = 1/5 * (delta - avg) :=
      min_eq_left (by linarith)
    rw [hmin]
    have hlb : 1/5 * (delta - avg) ≤ max (-2 : ℚ) (1/5 * (delta - avg)) :=
      le_max_right _ _
    have hub : max (-2 : ℚ) (1/5 * (delta - avg)) ≤ 0 :=
      max_le (by norm_num) hx
    constructor
    · have : delta ≤ avg + max (-2 : ℚ) (1/5 * (delta - avg)) := by
        have h5 : delta - avg ≤ 1/5 * (delta - avg) := by linarith
        linarith
      exact (min_le_right avg delta).trans this
    · have : avg + max (-2 : ℚ) (1/5 * (delta - avg)) ≤ avg := by linarith
      exact this.trans (le_max_left _ _)

theorem updateRendererSize_scaleStep (d : ℚ) (st : RendererState) :
    (updateRendererSize d st).scaleStep = st.scaleStep := by
  simp only [updateRendererSize]
  split_ifs <;> rfl

theorem updateRendererSize_lastStep (d : ℚ) (st : RendererState) :
    (updateRendererSize d st).lastStep = st.lastStep := by
  simp only [updateRendererSize]
  split_ifs <;> rfl

theorem updateRendererSize_avg (d : ℚ) (st : RendererState) :
    (updateRendererSize d st).avgFrameDuration = st.avgFrameDuration := by
  simp only [updateRendererSize]
  split_ifs <;> rfl

theorem updateRendererSize_lastTick (d : ℚ) (st : RendererState) :
    (updateRendererSize d st).lastTick = st.lastTick := by
  simp only [updateRendererSize]
  split_ifs <;> rfl

theorem updateRendererSize_canRender (d : ℚ) (st : RendererState) :
    (updateRendererSize d st).canRender = st.canRender := by
  simp only [updateRendererSize]
  split_ifs <;> rfl

theorem updateRendererSize_isPresenting (d : ℚ) (st : RendererState) :
    (updateRendererSize d st).isPresenting = st.isPresenting := by
  simp only [updateRendererSize]
  split_ifs <;> rfl

theorem updateRendererScale_scaleStep (st : RendererState) :
    (updateRendererScale st).scaleStep =
      if HIGH_FRAME_DURATION_MS < st.avgFrameDuration ∧
          st.scaleStep < st.lastStep then st.scaleStep + 1
      else if st.avgFrameDuration < LOW_FRAME_DURATION_MS ∧
          0 < st.scaleStep then st.scaleStep - 1
      else st.scaleStep := by
  simp only [updateRendererScale]
  split_ifs <;> rfl

theorem updateRendererScale_lastStep (st : RendererState) :
    (updateRendererScale st).lastStep = st.lastStep := by
  simp only [updateRendererScale]
  split_ifs <;> rfl

theorem updateRendererScale_lastTick (st : RendererState) :
    (updateRendererScale st).lastTick = st.lastTick := by
  simp only [updateRendererScale]
  split_ifs <;> rfl

theorem updateRendererScale_canRender (st : RendererState) :
    (updateRendererScale st).canRender = st.canRender := by
  simp only [updateRendererScale]
  split_ifs <;> rfl

theorem updateRendererScale_isPresenting (st : RendererState) :
    (updateRendererScale st).isPresenting = st.isPresenting := by
  simp only [updateRendererScale]
  split_ifs <;> rfl

/-- The selector either leaves the average (step unchanged) or resets it to
the threshold midpoint (step changed). -/
theorem updateRendererScale_avg (st : RendererState) :
    ((updateRendererScale st).scaleStep = st.scaleStep ∧
      (updateRendererScale st).avgFrameDuration = st.avgFrameDuration) ∨
    ((updateRendererScale st).scaleStep ≠ st.scaleStep ∧
      (updateRendererScale st).avgFrameDuration =
        (HIGH_FRAME_DURATION_MS + LOW_FRAME_DURATION_MS) / 2) := by
  by_cases h1 : HIGH_FRAME_DURATION_MS < st.avgFrameDuration ∧
      st.scaleStep < st.lastStep
  · right
    have hs : (updateRendererScale st).scaleStep = st.scaleStep + 1 := by
      rw [updateRendererScale_scaleStep, if_pos h1]
    refine ⟨by omega, ?_⟩
    simp only [updateRendererScale, if_pos h1]
    rw [if_neg (show ¬(st.scaleStep = st.scaleStep + 1) by omega)]
  · by_cases h2 : st.avgFrameDuration < LOW_FRAME_DURATION_MS ∧ 0 < st.scaleStep
    · right
      have hs : (updateRendererScale st).scaleStep = st.scaleStep - 1 := by
        rw [updateRendererScale_scaleStep, if_neg h1, if_pos h2]
      refine ⟨by omega, ?_⟩
      simp only [updateRendererScale, if_pos h2, if_neg h1]
      rw [if_neg (show ¬(st.scaleStep = st.scaleStep - 1) by omega)]
    · left
      have hs : (updateRendererScale st).scaleStep = st.scaleStep := by
        rw [updateRendererScale_scaleStep, if_neg h1, if_neg h2]
      refine ⟨hs, ?_⟩
      simp only [updateRendererScale, if_neg h1, if_neg h2, if_pos, if_true]

/-- Closed form of the selector's effect on the average: it is reset to the
threshold midpoint exactly when one of the two step-change guards fires,
and kept otherwise. -/
theorem updateRendererScale_avg_eq (st : RendererState) :
    (updateRendererScale st).avgFrameDuration =
      if (HIGH_FRAME_DURATION_MS < st.avgFrameDuration ∧
            st.scaleStep < st.lastStep) ∨
         (st.avgFrameDuration < LOW_FRAME_DURATION_MS ∧ 0 < st.scaleStep) then
        (HIGH_FRAME_DURATION_MS + LOW_FRAME_DURATION_MS) / 2
      else st.avgFrameDuration := by
  by_cases h1 : HIGH_FRAME_DURATION_MS < st.avgFrameDuration ∧
      st.scaleStep < st.lastStep
  · rw [if_pos (Or.inl h1)]
    simp only [updateRendererScale, if_pos h1]
    rw [if_neg (show ¬(st.scaleStep = st.scaleStep + 1) by omega)]
  · by_cases h2 : st.avgFrameDuration < LOW_FRAME_DURATION_MS ∧ 0 < st.scaleStep
    · rw [if_pos (Or.inr h2)]
      simp only [updateRendererScale, if_neg h1, if_pos h2]
      rw [if_neg (show ¬(st.scaleStep = st.scaleStep - 1) by omega)]
    · rw [if_neg (by tauto)]
      simp only [updateRendererScale, if_neg h1, if_neg h2, if_pos, if_true]

theorem render_canRender (t : ℚ) (fr : Option Unit) (d : ℚ)
    (st : RendererState) : (render t fr d st).canRender = st.canRender := by
  simp only [render]
  split_ifs
  · rfl
  · rfl
  · rw [updateRendererScale_canRender, updateRendererSize_canRender]

theorem render_isPresenting (t : ℚ) (fr : Option Unit) (d : ℚ)
    (st : RendererState) :
    (render t fr d st).isPresenting = st.isPresenting := by
  simp only [render]
  split_ifs
  · rfl
  · rfl
  · rw [updateRendererScale_isPresenting, updateRendererSize_isPresenting]

theorem render_lastStep (t : ℚ) (fr : Option Unit) (d : ℚ)
    (st : RendererState) : (render t fr d st).lastStep = st.lastStep := by
  simp only [render]
  split_ifs
  · rfl
  · rfl
  · rw [updateRendererScale_lastStep, updateRendererSize_lastStep]

/-- The frame timer: every non-XR tick records its timestamp, whether or
not the tick goes on to the estimator. -/
theorem render_lastTick (t : ℚ) (fr : Option Unit) (d : ℚ)
    (st : RendererState) :
    (render t fr d st).lastTick = if fr.isSome then st.lastTick else t := by
  simp only [render]
  split_ifs
  · rfl
  · rfl
  · rw [updateRendererScale_lastTick, updateRendererSize_lastTick]

/-- On a tick that reaches the estimator, the resulting average is the
estimator output, except that a step change resets it to the midpoint. -/
theorem render_avg_of (t newDpr : ℚ) (st : RendererState)
    (hc : st.canRender = true) (hp : st.isPresenting = false) :
    (render t none newDpr st).avgFrameDuration =
      if (HIGH_FRAME_DURATION_MS <
            estimatorUpdate st.avgFrameDuration (t - st.lastTick) ∧
            st.scaleStep < st.lastStep) ∨
         (estimatorUpdate st.avgFrameDuration (t - st.lastTick) <
            LOW_FRAME_DURATION_MS ∧ 0 < st.scaleStep) then
        (HIGH_FRAME_DURATION_MS + LOW_FRAME_DURATION_MS) / 2
      else estimatorUpdate st.avgFrameDuration (t - st.lastTick) := by
  simp only [render, Option.isSome_none, Bool.false_eq_true, if_false, hc, hp,
    not_true, or_self, if_false]
  rw [updateRendererScale_avg_eq, updateRendererSize_avg,
    updateRendererSize_scaleStep, updateRendererSize_lastStep]

/-- On a tick that reaches the estimator, the resulting step is the
selector applied to the estimator output. -/
theorem render_scaleStep_of (t newDpr : ℚ) (st : RendererState)
    (hc : st.canRender = true) (hp : st.isPresenting = false) :
    (render t none newDpr st).scaleStep =
      if HIGH_FRAME_DURATION_MS <
            estimatorUpdate st.avgFrameDuration (t - st.lastTick) ∧
          st.scaleStep < st.lastStep then st.scaleStep + 1
      else if estimatorUpdate st.avgFrameDuration (t - st.lastTick) <
            LOW_FRAME_DURATION_MS ∧ 0 < st.scaleStep then st.scaleStep - 1
      else st.scaleStep := by
  simp only [render, Option.isSome_none, Bool.false_eq_true, if_false, hc, hp,
    not_true, or_self, if_false]
  rw [updateRendererScale_scaleStep, updateRendererSize_avg,
    updateRendererSize_scaleStep, updateRendererSize_lastStep]

/-- On a tick that does not reach the estimator (no renderer or AR
presenting), only the frame timer runs. -/
theorem render_skip (t newDpr : ℚ) (st : RendererState)
    (h : st.canRender = false ∨ st.isPresenting = true) :
    render t none newDpr st = { st with lastTick := t } := by
  simp only [render, Option.isSome_none, Bool.false_eq_true, if_false]
  rw [if_pos]
  rcases h with h | h <;> simp [h]

/-! ### The claims -/

/-- C1: the scale-step selector, evaluated once per render tick, increments
`scaleStep` iff the average is strictly above `HIGH_FRAME_DURATION_MS` (26)
and `scaleStep < lastStep`; otherwise decrements iff the average is
strictly below `LOW_FRAME_DURATION_MS` (18) and `scaleStep > 0`; otherwise
leaves it unchanged.  In every single evaluation the step moves by at most
one. -/
theorem scale_step_selector_exact (st : RendererState) :
    ((st.avgFrameDuration > HIGH_FRAME_DURATION_MS ∧
        st.scaleStep < st.lastStep) →
      (updateRendererScale st).scaleStep = st.scaleStep + 1) ∧
    (¬(st.avgFrameDuration > HIGH_FRAME_DURATION_MS ∧
        st.scaleStep < st.lastStep) →
      (st.avgFrameDuration < LOW_FRAME_DURATION_MS ∧ st.scaleStep > 0) →
      (updateRendererScale st).scaleStep = st.scaleStep - 1) ∧
    (¬(st.avgFrameDuration > HIGH_FRAME_DURATION_MS ∧
        st.scaleStep < st.lastStep) →
      ¬(st.avgFrameDuration < LOW_FRAME_DURATION_MS ∧ st.scaleStep > 0) →
      (updateRendererScale st).scaleStep = st.scaleStep) ∧
    |(updateRendererScale st).scaleStep - st.scaleStep| ≤ 1 := by
  refine ⟨fun h => ?_, fun hn h => ?_, fun hn1 hn2 => ?_, ?_⟩
  · rw [updateRendererScale_scaleStep, if_pos h]
  · rw [updateRendererScale_scaleStep, if_neg hn, if_pos h]
  · rw [updateRendererScale_scaleStep, if_neg hn1, if_neg hn2]
  · rw [updateRendererScale_scaleStep]
    split_ifs <;> rw [abs_le] <;> constructor <;> omega

/-- C1 witness: with average 27 above `HIGH` and step 0 below `lastStep` 3,
one evaluation raises the step to 1. -/
theorem scale_step_selector_exact_witness :
    (updateRendererScale
        { rendererFieldInit true with avgFrameDuration := 27 }).scaleStep =
      ({ rendererFieldInit true with
          avgFrameDuration := 27 } : RendererState).scaleStep + 1 :=
  (scale_step_selector_exact
    { rendererFieldInit true with avgFrameDuration := 27 }).1 (by decide)

/-- C2: every render tick that reaches the estimator (no XR frame, renderer
available, not AR-presenting) updates the average by exactly
`avg + clamp(DURATION_DECAY * (delta - avg), -MAX_AVG_CHANGE_MS,
MAX_AVG_CHANGE_MS)` with `delta = t - lastTick`, `DURATION_DECAY = 1/5` and
`MAX_AVG_CHANGE_MS = 2`, before the resizer and selector run; and for every
prior average and every delta the estimator moves the average by at most
2 ms. -/
theorem render_estimator_exact (t newDpr : ℚ) (st : RendererState)
    (hc : st.canRender = true) (hp : st.isPresenting = false) :
    (render t none newDpr st =
      updateRendererScale (updateRendererSize newDpr
        { st with
          lastTick := t,
          avgFrameDuration :=
            estimatorUpdate st.avgFrameDuration (t - st.lastTick) })) ∧
    (∀ avg delta : ℚ,
      estimatorUpdate avg delta =
        avg + clamp (DURATION_DECAY * (delta - avg))
          (-MAX_AVG_CHANGE_MS) MAX_AVG_CHANGE_MS ∧
      DURATION_DECAY = 1/5 ∧ MAX_AVG_CHANGE_MS = 2 ∧
      |estimatorUpdate avg delta - avg| ≤ MAX_AVG_CHANGE_MS) := by
  refine ⟨?_, fun avg delta =>
    ⟨rfl, rfl, rfl, abs_estimatorUpdate_sub_le avg delta⟩⟩
  simp only [render, Option.isSome_none, Bool.false_eq_true, if_false, hc, hp]
  simp

/-- C2 witness: a tick at `t = 10` from the freshly initialized fields
(average 22, `lastTick` 0) yields average `22 + clamp(0.2 * (10 - 22)) =
22 - 2 = 20`. -/
theorem render_estimator_exact_witness :
    (render 10 none 1 (rendererFieldInit true)).avgFrameDuration = 20 := by
  have h := render_estimator_exact 10 1 (rendererFieldInit true) rfl rfl
  rw [h.1]
  norm_num [rendererFieldInit, updateRendererSize, updateRendererScale,
    estimatorUpdate, clamp, scaleFactor, SCALE_STEPS, DURATION_DECAY,
    MAX_AVG_CHANGE_MS, LOW_FRAME_DURATION_MS, HIGH_FRAME_DURATION_MS,
    DEFAULT_LAST_STEP, min_def, max_def]

/-- C3 counterexample: immediately after construction the average is 0, not
the threshold midpoint 22: the constructor's final statement
`this.avgFrameDuration = 0` (Renderer.ts line 659) overrides the field
initializer. -/
theorem construct_avg_ne_midpoint :
    (rendererConstruct 0 1 true).avgFrameDuration = 0 ∧
    ¬((rendererConstruct 0 1 true).avgFrameDuration =
        (LOW_FRAME_DURATION_MS + HIGH_FRAME_DURATION_MS) / 2) := by
  refine ⟨rfl, ?_⟩
  have h : (rendererConstruct 0 1 true).avgFrameDuration = 0 := rfl
  rw [h]
  norm_num [LOW_FRAME_DURATION_MS, HIGH_FRAME_DURATION_MS]

/-- C3 amended: the field initializer does set the average to the midpoint
`(HIGH + LOW) / 2 = 22`, but the constructor body then resets it, so
immediately after construction (before any render tick) the average is 0
for every construction-time timestamp, dpr and renderer availability. -/
theorem construct_avg_eq_zero (now dpr0 : ℚ) (cr : Bool) :
    (rendererConstruct now dpr0 cr).avgFrameDuration = 0 ∧
    (rendererFieldInit cr).avgFrameDuration =
      (LOW_FRAME_DURATION_MS + HIGH_FRAME_DURATION_MS) / 2 ∧
    (LOW_FRAME_DURATION_MS + HIGH_FRAME_DURATION_MS) / 2 = 22 := by
  refine ⟨rfl, ?_, by norm_num [LOW_FRAME_DURATION_MS, HIGH_FRAME_DURATION_MS]⟩
  norm_num [rendererFieldInit, LOW_FRAME_DURATION_MS, HIGH_FRAME_DURATION_MS]

/-- C10: a render call with a non-null XR frame returns before touching any
state: `lastTick`, the average, the step and all modelled sizes keep their
previous values, and the next non-XR tick therefore behaves exactly as if
the XR call had never happened (its delta spans back to the `lastTick`
recorded before the XR period). -/
theorem render_xr_frame_noop (t newDpr : ℚ) (st : RendererState) :
    render t (some ()) newDpr st = st ∧
    (render t (some ()) newDpr st).lastTick = st.lastTick ∧
    (∀ u d2 : ℚ,
      render u none d2 (render t (some ()) newDpr st) = render u none d2 st) :=
  ⟨rfl, rfl, fun _ _ => rfl⟩

/-- One render tick, with any frame argument, keeps the step within its
bounds: increments are guarded by `scaleStep < lastStep` and decrements by
`0 < scaleStep`. -/
theorem render_scaleStep_bounds (t : ℚ) (fr : Option Unit) (d : ℚ)
    (st : RendererState) (h1 : 0 ≤ st.scaleStep)
    (h2 : st.scaleStep ≤ st.lastStep) :
    0 ≤ (render t fr d st).scaleStep ∧
      (render t fr d st).scaleStep ≤ st.lastStep := by
  cases fr with
  | some u => exact ⟨h1, h2⟩
  | none =>
    by_cases hcr : st.canRender = true
    · by_cases hpr : st.isPresenting = false
      · rw [render_scaleStep_of t d st hcr hpr]
        split_ifs with hA hB
        · have := hA.2; omega
        · have := hB.2; omega
        · omega
      · rw [render_skip t d st (Or.inr (by simpa using hpr))]
        exact ⟨h1, h2⟩
    · rw [render_skip t d st (Or.inl (by simpa using hcr))]
      exact ⟨h1, h2⟩

/-- The step bounds are preserved by any run of render ticks, and no tick
ever changes `lastStep`. -/
theorem renderRun_scaleStep_bounds (inputs : List (ℚ × Option Unit × ℚ))
    (st : RendererState) (h1 : 0 ≤ st.scaleStep)
    (h2 : st.scaleStep ≤ st.lastStep) :
    0 ≤ (renderRun inputs st).scaleStep ∧
      (renderRun inputs st).scaleStep ≤ (renderRun inputs st).lastStep ∧
      (renderRun inputs st).lastStep = st.lastStep := by
  induction inputs generalizing st with
  | nil => exact ⟨h1, h2, rfl⟩
  | cons i rest ih =>
    have hstep := render_scaleStep_bounds i.1 i.2.1 i.2.2 st h1 h2
    have hlast := render_lastStep i.1 i.2.1 i.2.2 st
    have h' := ih (render i.1 i.2.1 i.2.2 st) hstep.1
      (by rw [hlast]; exact hstep.2)
    have e : renderRun (i :: rest) st =
        renderRun rest (render i.1 i.2.1 i.2.2 st) := rfl
    rw [e]
    exact ⟨h'.1, h'.2.1, h'.2.2.trans hlast⟩

/-- C4: from any state with `scaleStep = 0` and a fixed `lastStep` within
`[0, SCALE_STEPS.length - 1]`, every sequence of render ticks (arbitrary
timestamps, XR frames and dpr values) maintains the invariant
`0 ≤ scaleStep ≤ lastStep ≤ SCALE_STEPS.length - 1` after every tick:
every prefix of a tick sequence is itself a tick sequence, so the
conclusion for all input lists covers every intermediate state. -/
theorem renderRun_scaleStep_invariant (st : RendererState)
    (h0 : st.scaleStep = 0) (hL0 : 0 ≤ st.lastStep)
    (hL1 : st.lastStep ≤ (SCALE_STEPS.length : ℤ) - 1)
    (inputs : List (ℚ × Option Unit × ℚ)) :
    0 ≤ (renderRun inputs st).scaleStep ∧
    (renderRun inputs st).scaleStep ≤ (renderRun inputs st).lastStep ∧
    (renderRun inputs st).lastStep ≤ (SCALE_STEPS.length : ℤ) - 1 := by
  have h := renderRun_scaleStep_bounds inputs st (by omega) (by omega)
  exact ⟨h.1, h.2.1, by rw [h.2.2]; exact hL1⟩

/-- C4 witness: one tick at timestamp 30 from the freshly initialized
fields (step 0, `lastStep` 3) keeps the invariant. -/
theorem renderRun_scaleStep_invariant_witness :
    0 ≤ (renderRun [(30, none, 1)] (rendererFieldInit true)).scaleStep ∧
    (renderRun [(30, none, 1)] (rendererFieldInit true)).scaleStep ≤
      (renderRun [(30, none, 1)] (rendererFieldInit true)).lastStep ∧
    (renderRun [(30, none, 1)] (rendererFieldInit true)).lastStep ≤
      (SCALE_STEPS.length : ℤ) - 1 :=
  renderRun_scaleStep_invariant (rendererFieldInit true) rfl (by decide)
    (by decide) [(30, none, 1)]

/-- C6: whenever an evaluation of the selector changes the step (in either
direction), that same evaluation resets the average to the midpoint
`(LOW + HIGH) / 2`, and the immediately following render tick can never
change the step again: one estimator update moves the average by at most
`MAX_AVG_CHANGE_MS = 2`, which cannot carry 22 strictly past 18 or 26. -/
theorem step_change_resets_and_blocks (st : RendererState)
    (h : (updateRendererScale st).scaleStep ≠ st.scaleStep) :
    (updateRendererScale st).avgFrameDuration =
      (LOW_FRAME_DURATION_MS + HIGH_FRAME_DURATION_MS) / 2 ∧
    ∀ (u d : ℚ) (fr : Option Unit),
      (render u fr d (updateRendererScale st)).scaleStep =
        (updateRendererScale st).scaleStep := by
  have havg : (updateRendererScale st).avgFrameDuration =
      (HIGH_FRAME_DURATION_MS + LOW_FRAME_DURATION_MS) / 2 := by
    rcases updateRendererScale_avg st with ⟨he, -⟩ | ⟨-, he⟩
    · exact absurd he h
    · exact he
  refine ⟨by rw [havg]; ring, ?_⟩
  intro u d fr
  cases fr with
  | some un => rfl
  | none =>
    by_cases hcr : (updateRendererScale st).canRender = true
    · by_cases hpr : (updateRendererScale st).isPresenting = false
      · have hHL : (HIGH_FRAME_DURATION_MS + LOW_FRAME_DURATION_MS) / 2 =
            (22 : ℚ) := by
          norm_num [HIGH_FRAME_DURATION_MS, LOW_FRAME_DURATION_MS]
        rw [render_scaleStep_of u d (updateRendererScale st) hcr hpr, havg, hHL]
        have hb := abs_estimatorUpdate_sub_le (22 : ℚ)
          (u - (updateRendererScale st).lastTick)
        rw [abs_le, MAX_AVG_CHANGE_MS] at hb
        rw [if_neg, if_neg]
        · rintro ⟨hq, -⟩
          rw [LOW_FRAME_DURATION_MS] at hq
          linarith [hb.1, hb.2]
        · rintro ⟨hq, -⟩
          rw [HIGH_FRAME_DURATION_MS] at hq
          linarith [hb.1, hb.2]
      · rw [render_skip u d (updateRendererScale st)
          (Or.inr (by simpa using hpr))]
    · rw [render_skip u d (updateRendererScale st)
        (Or.inl (by simpa using hcr))]

/-- C6 witness: from average 27 and step 0 the selector steps to 1 and
resets the average; a following tick at timestamp 100 leaves the step
at 1. -/
theorem step_change_resets_and_blocks_witness :
    (updateRendererScale
        { rendererFieldInit true with avgFrameDuration := 27 }).avgFrameDuration =
      (LOW_FRAME_DURATION_MS + HIGH_FRAME_DURATION_MS) / 2 ∧
    (render 100 none 1 (updateRendererScale
        { rendererFieldInit true with avgFrameDuration := 27 })).scaleStep =
      (updateRendererScale
        { rendererFieldInit true with avgFrameDuration := 27 }).scaleStep := by
  have hne : (updateRendererScale
      { rendererFieldInit true with avgFrameDuration := 27 }).scaleStep ≠
      ({ rendererFieldInit true with
          avgFrameDuration := 27 } : RendererState).scaleStep := by
    rw [updateRendererScale_scaleStep, if_pos (by decide)]
    decide
  have h := step_change_resets_and_blocks
    { rendererFieldInit true with avgFrameDuration := 27 } hne
  exact ⟨h.1, h.2 100 1 none⟩

/-- One unfolding of the `minScale` walk while in bounds. -/
theorem minScaleLoop_step (scale : ℚ) (i : ℕ) (hi : i < SCALE_STEPS.length) :
    minScaleLoop scale i =
      if SCALE_STEPS.getD i 0 < scale then i else minScaleLoop scale (i + 1) := by
  rw [minScaleLoop, dif_pos hi]

/-- The walk stops at the table length. -/
theorem minScaleLoop_end (scale : ℚ) :
    minScaleLoop scale SCALE_STEPS.length = SCALE_STEPS.length := by
  rw [minScaleLoop, dif_neg (by omega)]

/-- C5: for every configured minimum scale in (0, 1], the `minScale` setter
(walking the table from index 1 and stopping at the first entry below the
minimum) computes `lastStep` as the largest index of `SCALE_STEPS` whose
entry is still at least the minimum: the resulting `lastStep` is in bounds,
its table entry is at least the minimum, and every index whose entry is at
least the minimum is at most `lastStep`. -/
theorem minScale_lastStep_greatest (scale : ℚ) (st : RendererState)
    (h0 : 0 < scale) (h1 : scale ≤ 1) :
    0 ≤ (minScale scale st).lastStep ∧
    (minScale scale st).lastStep ≤ (SCALE_STEPS.length : ℤ) - 1 ∧
    scale ≤ SCALE_STEPS.getD (minScale scale st).lastStep.toNat 0 ∧
    (∀ j : ℕ, j < SCALE_STEPS.length →
      scale ≤ SCALE_STEPS.getD j 0 → (j : ℤ) ≤ (minScale scale st).lastStep) := by
  have e : (minScale scale st).lastStep = (minScaleLoop scale 1 : ℤ) - 1 := rfl

  by_cases b1 : (79/100 : ℚ) < scale

  · have lk1 : minScaleLoop scale 1 = 1 := by
      rw [minScaleLoop_step scale 1 (by norm_num [SCALE_STEPS]),
        if_pos (by simpa [SCALE_STEPS] using b1)]
    rw [e, lk1]
    refine ⟨by norm_num, by norm_num [SCALE_STEPS], ?_, ?_⟩
    · simpa [SCALE_STEPS] using h1
    · intro j hj hge
      have hj7 : j < 7 := by simpa [SCALE_STEPS] using hj
      interval_cases j
      · norm_num
      · exfalso
        simp [SCALE_STEPS] at hge
        linarith [b1, hge]
      · exfalso
        simp [SCALE_STEPS] at hge
        linarith [b1, hge]
      · exfalso
        simp [SCALE_STEPS] at hge
        linarith [b1, hge]
      · exfalso
        simp [SCALE_STEPS] at hge
        linarith [b1, hge]
      · exfalso
        simp [SCALE_STEPS] at hge
        linarith [b1, hge]
      · exfalso
        simp [SCALE_STEPS] at hge
        linarith [b1, hge]

  by_cases b2 : (62/100 : ℚ) < scale

  · have lk2 : minScaleLoop scale 1 = 2 := by
      rw [minScaleLoop_step scale 1 (by norm_num [SCALE_STEPS]),
        if_neg (by simpa [SCALE_STEPS] using b1),
        minScaleLoop_step scale 2 (by norm_num [SCALE_STEPS]),
        if_pos (by simpa [SCALE_STEPS] using b2)]
    rw [e, lk2]
    refine ⟨by norm_num, by norm_num [SCALE_STEPS], ?_, ?_⟩
    · simpa [SCALE_STEPS] using not_lt.mp b1
    · intro j hj hge
      have hj7 : j < 7 := by simpa [SCALE_STEPS] using hj
      interval_cases j
      · norm_num
      · norm_num
      · exfalso
        simp [SCALE_STEPS] at hge
        linarith [b2, hge]
      · exfalso
        simp [SCALE_STEPS] at hge
        linarith [b2, hge]
      · exfalso
        simp [SCALE_STEPS] at hge
        linarith [b2, hge]
      · exfalso
        simp [SCALE_STEPS] at hge
        linarith [b2, hge]
      · exfalso
        simp [SCALE_STEPS] at hge
        linarith [b2, hge]

  by_cases b3 : (1/2 : ℚ) < scale

  · have lk3 : minScaleLoop scale 1 = 3 := by
      rw [minScaleLoop_step scale 1 (by norm_num [SCALE_STEPS]),
        if_neg (by simpa [SCALE_STEPS] using b1),
        minScaleLoop_step scale 2 (by norm_num [SCALE_STEPS]),
        if_neg (by simpa [SCALE_STEPS] using b2),
        minScaleLoop_step scale 3 (by norm_num [SCALE_STEPS]),
        if_pos (by simpa [SCALE_STEPS] using b3)]
    rw [e, lk3]
    refine ⟨by norm_num, by norm_num [SCALE_STEPS], ?_, ?_⟩
    · simpa [SCALE_STEPS] using not_lt.mp b2
    · intro j hj hge
      have hj7 : j < 7 := by simpa [SCALE_STEPS] using hj
      interval_cases j
      · norm_num
      · norm_num
      · norm_num
      · exfalso
        simp [SCALE_STEPS] at hge
        linarith [b3, hge]
      · exfalso
        simp [SCALE_STEPS] at hge
        linarith [b3, hge]
      · exfalso
        simp [SCALE_STEPS] at hge
        linarith [b3, hge]
      · exfalso
        simp [SCALE_STEPS] at hge
        linarith [b3, hge]

  by_cases b4 : (2/5 : ℚ) < scale

  · have lk4 : minScaleLoop scale 1 = 4 := by
      rw [minScaleLoop_step scale 1 (by norm_num [SCALE_STEPS]),
        if_neg (by simpa [SCALE_STEPS] using b1),
        minScaleLoop_step scale 2 (by norm_num [SCALE_STEPS]),
        if_neg (by simpa [SCALE_STEPS] using b2),
        minScaleLoop_step scale 3 (by norm_num [SCALE_STEPS]),
        if_neg (by simpa [SCALE_STEPS] using b3),
        minScaleLoop_step scale 4 (by norm_num [SCALE_STEPS]),
        if_pos (by simpa [SCALE_STEPS] using b4)]
    rw [e, lk4]
    refine ⟨by norm_num, by norm_num [SCALE_STEPS], ?_, ?_⟩
    · simpa [SCALE_STEPS] using not_lt.mp b3
    · intro j hj hge
      have hj7 : j < 7 := by simpa [SCALE_STEPS] using hj
      interval_cases j
      · norm_num
      · norm_num
      · norm_num
      · norm_num
      · exfalso
        simp [SCALE_STEPS] at hge
        linarith [b4, hge]
      · exfalso
        simp [SCALE_STEPS] at hge
        linarith [b4, hge]
      · exfalso
        simp [SCALE_STEPS] at hge
        linarith [b4, hge]

  by_cases b5 : (31/100 : ℚ) < scale

  · have lk5 : minScaleLoop scale 1 = 5 := by
      rw [minScaleLoop_step scale 1 (by norm_num [SCALE_STEPS]),
        if_neg (by simpa [SCALE_STEPS] using b1),
        minScaleLoop_step scale 2 (by norm_num [SCALE_STEPS]),
        if_neg (by simpa [SCALE_STEPS] using b2),
        minScaleLoop_step scale 3 (by norm_num [SCALE_STEPS]),
        if_neg (by simpa [SCALE_STEPS] using b3),
        minScaleLoop_step scale 4 (by norm_num [SCALE_STEPS]),
        if_neg (by simpa [SCALE_STEPS] using b4),
        minScaleLoop_step scale 5 (by norm_num [SCALE_STEPS]),
        if_pos (by simpa [SCALE_STEPS] using b5)]
    rw [e, lk5]
    refine ⟨by norm_num, by norm_num [SCALE_STEPS], ?_, ?_⟩
    · simpa [SCALE_STEPS] using not_lt.mp b4
    · intro j hj hge
      have hj7 : j < 7 := by simpa [SCALE_STEPS] using hj
      interval_cases j
      · norm_num
      · norm_num
      · norm_num
      · norm_num
      · norm_num
      · exfalso
        simp [SCALE_STEPS] at hge
        linarith [b5, hge]
      · exfalso
        simp [SCALE_STEPS] at hge
        linarith [b5, hge]

  by_cases b6 : (1/4 : ℚ) < scale

  · have lk6 : minScaleLoop scale 1 = 6 := by
      rw [minScaleLoop_step scale 1 (by norm_num [SCALE_STEPS]),
        if_neg (by simpa [SCALE_STEPS] using b1),
        minScaleLoop_step scale 2 (by norm_num [SCALE_STEPS]),
        if_neg (by simpa [SCALE_STEPS] using b2),
        minScaleLoop_step scale 3 (by norm_num [SCALE_STEPS]),
        if_neg (by simpa [SCALE_STEPS] using b3),
        minScaleLoop_step scale 4 (by norm_num [SCALE_STEPS]),
        if_neg (by simpa [SCALE_STEPS] using b4),
        minScaleLoop_step scale 5 (by norm_num [SCALE_STEPS]),
        if_neg (by simpa [SCALE_STEPS] using b5),
        minScaleLoop_step scale 6 (by norm_num [SCALE_STEPS]),
        if_pos (by simpa [SCALE_STEPS] using b6)]
    rw [e, lk6]
    refine ⟨by norm_num, by norm_num [SCALE_STEPS], ?_, ?_⟩
    · simpa [SCALE_STEPS] using not_lt.mp b5
    · intro j hj hge
      have hj7 : j < 7 := by simpa [SCALE_STEPS] using hj
      interval_cases j
      · norm_num
      · norm_num
      · norm_num
      · norm_num
      · norm_num
      · norm_num
      · exfalso
        simp [SCALE_STEPS] at hge
        linarith [b6, hge]

  have lk7 : minScaleLoop scale 1 = 7 := by
    rw [minScaleLoop_step scale 1 (by norm_num [SCALE_STEPS]),
      if_neg (by simpa [SCALE_STEPS] using b1),
      minScaleLoop_step scale 2 (by norm_num [SCALE_STEPS]),
      if_neg (by simpa [SCALE_STEPS] using b2),
      minScaleLoop_step scale 3 (by norm_num [SCALE_STEPS]),
      if_neg (by simpa [SCALE_STEPS] using b3),
      minScaleLoop_step scale 4 (by norm_num [SCALE_STEPS]),
      if_neg (by simpa [SCALE_STEPS] using b4),
      minScaleLoop_step scale 5 (by norm_num [SCALE_STEPS]),
      if_neg (by simpa [SCALE_STEPS] using b5),
      minScaleLoop_step scale 6 (by norm_num [SCALE_STEPS]),
      if_neg (by simpa [SCALE_STEPS] using b6)]
    exact minScaleLoop_end scale
  rw [e, lk7]
  refine ⟨by norm_num, by norm_num [SCALE_STEPS], ?_, ?_⟩
  · simpa [SCALE_STEPS] using not_lt.mp b6
  · intro j hj hge
    have hj7 : j < 7 := by simpa [SCALE_STEPS] using hj
    omega


/-- C5 witness: minimum scale 1/2 yields `lastStep` 3, whose entry is 1/2. -/
theorem minScale_lastStep_greatest_witness :
    0 ≤ (minScale (1/2) (rendererFieldInit true)).lastStep ∧
    (minScale (1/2) (rendererFieldInit true)).lastStep ≤
      (SCALE_STEPS.length : ℤ) - 1 ∧
    (1/2 : ℚ) ≤ SCALE_STEPS.getD
      (minScale (1/2) (rendererFieldInit true)).lastStep.toNat 0 ∧
    (∀ j : ℕ, j < SCALE_STEPS.length →
      (1/2 : ℚ) ≤ SCALE_STEPS.getD j 0 →
      (j : ℤ) ≤ (minScale (1/2) (rendererFieldInit true)).lastStep) :=
  minScale_lastStep_greatest (1/2) (rendererFieldInit true)
    (by norm_num) (by norm_num)

/-- Start state of the C7 scenario: average at the midpoint 22, step 0,
a configured `lastStep` of `L`, `lastTick` 0, no registered scenes. -/
def c7Start (L : ℤ) : RendererState :=
  { rendererFieldInit true with
    lastStep := L,
    avgFrameDuration := 22 }

/-- C7 counterexample: from average 22, step 0 and `lastStep` 1, feeding a
constant delta of 30 ms does not make the step reach 1 within two
evaluations: after two ticks the step is still 0 (the average has only
reached 24.88, still below 26). -/
theorem delta30_not_step_one_in_two :
    (renderRun [(30, none, 1), (60, none, 1)] (c7Start 1)).scaleStep = 0 ∧
    (renderRun [(30, none, 1), (60, none, 1)]
      (c7Start 1)).avgFrameDuration = 622/25 := by
  constructor <;>
    norm_num [renderRun, List.foldl, render, c7Start, rendererFieldInit,
      updateRendererSize, updateRendererScale, estimatorUpdate, clamp,
      scaleFactor, SCALE_STEPS, DURATION_DECAY, MAX_AVG_CHANGE_MS,
      LOW_FRAME_DURATION_MS, HIGH_FRAME_DURATION_MS, min_def, max_def]

/-- C7 amended: from average 22, step 0 and any `lastStep >= 1`, feeding a
constant delta of 30 ms per tick makes the step reach 1 at the fourth
evaluation: the first three evaluations move the average to 23.6, 24.88
and 25.904 (each change at most 2 ms, all below 26, no step change), and
the fourth pushes it to 26.7232, past 26, stepping to 1 and resetting the
average to the midpoint. -/
theorem delta30_reaches_step_one_in_four (L : ℤ) (hL : 1 ≤ L) :
    ((render 30 none 1 (c7Start L)).scaleStep = 0 ∧
      (render 30 none 1 (c7Start L)).avgFrameDuration = 118/5) ∧
    ((render 60 none 1 (render 30 none 1 (c7Start L))).scaleStep = 0 ∧
      (render 60 none 1
        (render 30 none 1 (c7Start L))).avgFrameDuration = 622/25) ∧
    ((render 90 none 1 (render 60 none 1
        (render 30 none 1 (c7Start L)))).scaleStep = 0 ∧
      (render 90 none 1 (render 60 none 1
        (render 30 none 1 (c7Start L)))).avgFrameDuration = 3238/125) ∧
    ((render 120 none 1 (render 90 none 1 (render 60 none 1
        (render 30 none 1 (c7Start L))))).scaleStep = 1 ∧
      (render 120 none 1 (render 90 none 1 (render 60 none 1
        (render 30 none 1 (c7Start L))))).avgFrameDuration =
        (LOW_FRAME_DURATION_MS + HIGH_FRAME_DURATION_MS) / 2) := by
  have hL' : (0 : ℤ) < L := by omega
  have c0 : (c7Start L).canRender = true := rfl
  have p0 : (c7Start L).isPresenting = false := rfl
  have a1 : (render 30 none 1 (c7Start L)).avgFrameDuration = 118/5 := by
    rw [render_avg_of 30 1 (c7Start L) c0 p0]
    norm_num [c7Start, rendererFieldInit, estimatorUpdate, clamp,
      DURATION_DECAY, MAX_AVG_CHANGE_MS, LOW_FRAME_DURATION_MS,
      HIGH_FRAME_DURATION_MS, min_def, max_def]
  have s1 : (render 30 none 1 (c7Start L)).scaleStep = 0 := by
    rw [render_scaleStep_of 30 1 (c7Start L) c0 p0]
    norm_num [c7Start, rendererFieldInit, estimatorUpdate, clamp,
      DURATION_DECAY, MAX_AVG_CHANGE_MS, LOW_FRAME_DURATION_MS,
      HIGH_FRAME_DURATION_MS, min_def, max_def]
  have t1 : (render 30 none 1 (c7Start L)).lastTick = 30 := by
    rw [render_lastTick]
    rfl
  have l1 : (render 30 none 1 (c7Start L)).lastStep = L := by
    rw [render_lastStep]
    rfl
  have c1 : (render 30 none 1 (c7Start L)).canRender = true := by
    rw [render_canRender]
    exact c0
  have p1 : (render 30 none 1 (c7Start L)).isPresenting = false := by
    rw [render_isPresenting]
    exact p0
  have a2 : (render 60 none 1 (render 30 none 1 (c7Start L))).avgFrameDuration = 622/25 := by
    rw [render_avg_of 60 1 (render 30 none 1 (c7Start L)) c1 p1]
    rw [a1, t1, s1, l1]
    norm_num [c7Start, rendererFieldInit, estimatorUpdate, clamp,
      DURATION_DECAY, MAX_AVG_CHANGE_MS, LOW_FRAME_DURATION_MS,
      HIGH_FRAME_DURATION_MS, min_def, max_def]
  have s2 : (render 60 none 1 (render 30 none 1 (c7Start L))).scaleStep = 0 := by
    rw [render_scaleStep_of 60 1 (render 30 none 1 (c7Start L)) c1 p1]
    rw [a1, t1, s1, l1]
    norm_num [c7Start, rendererFieldInit, estimatorUpdate, clamp,
      DURATION_DECAY, MAX_AVG_CHANGE_MS, LOW_FRAME_DURATION_MS,
      HIGH_FRAME_DURATION_MS, min_def, max_def]
  have t2 : (render 60 none 1 (render 30 none 1 (c7Start L))).lastTick = 60 := by
    rw [render_lastTick]
    rfl
  have l2 : (render 60 none 1 (render 30 none 1 (c7Start L))).lastStep = L := by
    rw [render_lastStep]
    exact l1
  have c2 : (render 60 none 1 (render 30 none 1 (c7Start L))).canRender = true := by
    rw [render_canRender]
    exact c1
  have p2 : (render 60 none 1 (render 30 none 1 (c7Start L))).isPresenting = false := by
    rw [render_isPresenting]
    exact p1
  have a3 : (render 90 none 1 (render 60 none 1 (render 30 none 1 (c7Start L)))).avgFrameDuration = 3238/125 := by
    rw [render_avg_of 90 1 (render 60 none 1 (render 30 none 1 (c7Start L))) c2 p2]
    rw [a2, t2, s2, l2]
    norm_num [c7Start, rendererFieldInit, estimatorUpdate, clamp,
      DURATION_DECAY, MAX_AVG_CHANGE_MS, LOW_FRAME_DURATION_MS,
      HIGH_FRAME_DURATION_MS, min_def, max_def]
  have s3 : (render 90 none 1 (render 60 none 1 (render 30 none 1 (c7Start L)))).scaleStep = 0 := by
    rw [render_scaleStep_of 90 1 (render 60 none 1 (render 30 none 1 (c7Start L))) c2 p2]
    rw [a2, t2, s2, l2]
    norm_num [c7Start, rendererFieldInit, estimatorUpdate, clamp,
      DURATION_DECAY, MAX_AVG_CHANGE_MS, LOW_FRAME_DURATION_MS,
      HIGH_FRAME_DURATION_MS, min_def, max_def]
  have t3 : (render 90 none 1 (render 60 none 1 (render 30 none 1 (c7Start L)))).lastTick = 90 := by
    rw [render_lastTick]
    rfl
  have l3 : (render 90 none 1 (render 60 none 1 (render 30 none 1 (c7Start L)))).lastStep = L := by
    rw [render_lastStep]
    exact l2
  have c3 : (render 90 none 1 (render 60 none 1 (render 30 none 1 (c7Start L)))).canRender = true := by
    rw [render_canRender]
    exact c2
  have p3 : (render 90 none 1 (render 60 none 1 (render 30 none 1 (c7Start L)))).isPresenting = false := by
    rw [render_isPresenting]
    exact p2
  have a4 : (render 120 none 1 (render 90 none 1 (render 60 none 1 (render 30 none 1 (c7Start L))))).avgFrameDuration = (HIGH_FRAME_DURATION_MS + LOW_FRAME_DURATION_MS) / 2 := by
    rw [render_avg_of 120 1 (render 90 none 1 (render 60 none 1 (render 30 none 1 (c7Start L)))) c3 p3]
    rw [a3, t3, s3, l3]
    norm_num [c7Start, rendererFieldInit, estimatorUpdate, clamp,
      DURATION_DECAY, MAX_AVG_CHANGE_MS, LOW_FRAME_DURATION_MS,
      HIGH_FRAME_DURATION_MS, min_def, max_def, hL']
  have s4 : (render 120 none 1 (render 90 none 1 (render 60 none 1 (render 30 none 1 (c7Start L))))).scaleStep = 0 + 1 := by
    rw [render_scaleStep_of 120 1 (render 90 none 1 (render 60 none 1 (render 30 none 1 (c7Start L)))) c3 p3]
    rw [a3, t3, s3, l3]
    norm_num [c7Start, rendererFieldInit, estimatorUpdate, clamp,
      DURATION_DECAY, MAX_AVG_CHANGE_MS, LOW_FRAME_DURATION_MS,
      HIGH_FRAME_DURATION_MS, min_def, max_def, hL']
  have t4 : (render 120 none 1 (render 90 none 1 (render 60 none 1 (render 30 none 1 (c7Start L))))).lastTick = 120 := by
    rw [render_lastTick]
    rfl
  have l4 : (render 120 none 1 (render 90 none 1 (render 60 none 1 (render 30 none 1 (c7Start L))))).lastStep = L := by
    rw [render_lastStep]
    exact l3
  have c4 : (render 120 none 1 (render 90 none 1 (render 60 none 1 (render 30 none 1 (c7Start L))))).canRender = true := by
    rw [render_canRender]
    exact c3
  have p4 : (render 120 none 1 (render 90 none 1 (render 60 none 1 (render 30 none 1 (c7Start L))))).isPresenting = false := by
    rw [render_isPresenting]
    exact p3
  refine ⟨⟨s1, a1⟩, ⟨s2, a2⟩, ⟨?_, a3⟩, ⟨?_, ?_⟩⟩
  · rw [s3]
  · rw [s4]
    norm_num
  · rw [a4]
    ring

/-- C7 amended witness: the scenario at `lastStep = 1`. -/
theorem delta30_reaches_step_one_in_four_witness :
    (render 120 none 1 (render 90 none 1 (render 60 none 1
      (render 30 none 1 (c7Start 1))))).scaleStep = 1 ∧
    (render 90 none 1 (render 60 none 1
      (render 30 none 1 (c7Start 1)))).scaleStep = 0 :=
  ⟨(delta30_reaches_step_one_in_four 1 (by norm_num)).2.2.2.1,
   (delta30_reaches_step_one_in_four 1 (by norm_num)).2.2.1.1⟩

/-- C8 counterexample: with two registered surfaces of logical sizes
800x600 and 400x300 at dpr 2 and step 0, the resizer sets the second
surface's CSS width to the union width 800, not to its own logical
width 400. -/
theorem resizer_css_is_union_not_own :
    ((updateRendererSize 2
        { rendererFieldInit true with
          scenes := [⟨800, 600, 0, 0, 0, 0, false⟩,
                     ⟨400, 300, 0, 0, 0, 0, false⟩] }).scenes.getD 1
        ⟨0, 0, 0, 0, 0, 0, false⟩).styleWidth = 800 ∧
    ¬(((updateRendererSize 2
        { rendererFieldInit true with
          scenes := [⟨800, 600, 0, 0, 0, 0, false⟩,
                     ⟨400, 300, 0, 0, 0, 0, false⟩] }).scenes.getD 1
        ⟨0, 0, 0, 0, 0, 0, false⟩).styleWidth = 400) := by
  constructor <;>
    norm_num [updateRendererSize, rendererFieldInit, scaleFactor,
      SCALE_STEPS, max_def, List.foldl, List.getD]

/-- C8 amended: with two registered surfaces 800x600 and 400x300 at dpr 2
and step 0, the shared backing canvas is sized to the union times the
pixel ratio, 1600x1200; each surface's 2D canvas backing store is also the
rounded union 1600x1200; and every surface's CSS display size (like the
shared canvas's) is the union logical size divided by the scale factor,
800x600 for both surfaces, not each surface's own logical size. -/
theorem resizer_union_sizes :
    updateRendererSize 2
      { rendererFieldInit true with
        scenes := [⟨800, 600, 0, 0, 0, 0, false⟩,
                   ⟨400, 300, 0, 0, 0, 0, false⟩] } =
    { lastTick := 0, scaleStep := 0, lastStep := DEFAULT_LAST_STEP,
      avgFrameDuration := (HIGH_FRAME_DURATION_MS + LOW_FRAME_DURATION_MS) / 2,
      width := 800, height := 600, dpr := 2,
      canRender := true, isPresenting := false,
      canvas3DWidth := 1600, canvas3DHeight := 1200,
      canvas3DStyleWidth := 800, canvas3DStyleHeight := 600,
      scenes := [⟨800, 600, 1600, 1200, 800, 600, true⟩,
                 ⟨400, 300, 1600, 1200, 800, 600, true⟩] } := by
  norm_num [updateRendererSize, rendererFieldInit, scaleFactor,
    SCALE_STEPS, max_def, List.foldl]

theorem foldl_min_le (l : List ℚ) (a : ℚ) : l.foldl min a ≤ a := by
  induction l generalizing a with
  | nil => exact le_refl a
  | cons x xs ih => exact (ih (min a x)).trans (min_le_left a x)

theorem foldl_min_le_mem (l : List ℚ) (a x : ℚ) (hx : x ∈ l) :
    l.foldl min a ≤ x := by
  induction l generalizing a with
  | nil => cases hx
  | cons y ys ih =>
    rcases List.mem_cons.mp hx with rfl | h
    · exact (foldl_min_le ys (min a x)).trans (min_le_right a x)
    · exact ih (min a y) h

theorem le_foldl_max (l : List ℚ) (a : ℚ) : a ≤ l.foldl max a := by
  induction l generalizing a with
  | nil => exact le_refl a
  | cons x xs ih => exact (le_max_left a x).trans (ih (max a x))

theorem mem_le_foldl_max (l : List ℚ) (a x : ℚ) (hx : x ∈ l) :
    x ≤ l.foldl max a := by
  induction l generalizing a with
  | nil => cases hx
  | cons y ys ih =>
    rcases List.mem_cons.mp hx with rfl | h
    · exact (le_max_right a x).trans (le_foldl_max ys (max a x))
    · exact ih (max a y) h

/-- The average stays in any interval that contains its current value, the
reset midpoint and every delta the run will observe. -/
theorem renderRun_avg_envelope_aux (dpr0 lo hi : ℚ) (ts : List ℚ)
    (st : RendererState)
    (hc : st.canRender = true) (hp : st.isPresenting = false)
    (hlo : lo ≤ st.avgFrameDuration) (hhi : st.avgFrameDuration ≤ hi)
    (hmidlo : lo ≤ (HIGH_FRAME_DURATION_MS + LOW_FRAME_DURATION_MS) / 2)
    (hmidhi : (HIGH_FRAME_DURATION_MS + LOW_FRAME_DURATION_MS) / 2 ≤ hi)
    (hds : ∀ d ∈ deltasFrom st.lastTick ts, lo ≤ d ∧ d ≤ hi) :
    lo ≤ (renderRun (ts.map fun t => (t, none, dpr0)) st).avgFrameDuration ∧
    (renderRun (ts.map fun t => (t, none, dpr0)) st).avgFrameDuration ≤ hi := by
  induction ts generalizing st with
  | nil => exact ⟨hlo, hhi⟩
  | cons t ts ih =>
    have e : renderRun ((t :: ts).map fun u => (u, none, dpr0)) st =
        renderRun (ts.map fun u => (u, none, dpr0))
          (render t none dpr0 st) := rfl
    rw [e]
    have hd := hds (t - st.lastTick) (by simp [deltasFrom])
    have hbet := estimatorUpdate_between st.avgFrameDuration (t - st.lastTick)
    have h1 : lo ≤ (render t none dpr0 st).avgFrameDuration ∧
        (render t none dpr0 st).avgFrameDuration ≤ hi := by
      rw [render_avg_of t dpr0 st hc hp]
      split_ifs with hch
      · exact ⟨hmidlo, hmidhi⟩
      · exact ⟨le_trans (le_min hlo hd.1) hbet.1,
          le_trans hbet.2 (max_le hhi hd.2)⟩
    refine ih (render t none dpr0 st) ?_ ?_ h1.1 h1.2 ?_
    · rw [render_canRender]; exact hc
    · rw [render_isPresenting]; exact hp
    · intro d hdm
      have hlt : (render t none dpr0 st).lastTick = t := by
        rw [render_lastTick]
        rfl
      rw [hlt] at hdm
      exact hds d (by simp [deltasFrom]; exact Or.inr hdm)

/-- C9 counterexample: a first render tick with delta 30 from the
constructed state (average 0) leaves the average at 2, outside the
min/max interval [30, 30] of the deltas observed so far. -/
theorem avg_outside_observed_minmax :
    (render 30 none 1 (rendererConstruct 0 1 true)).avgFrameDuration = 2 ∧
    ¬(30 ≤ (render 30 none 1 (rendererConstruct 0 1 true)).avgFrameDuration ∧
      (render 30 none 1 (rendererConstruct 0 1 true)).avgFrameDuration ≤ 30) := by
  have h : (render 30 none 1 (rendererConstruct 0 1 true)).avgFrameDuration =
      2 := by
    norm_num [render, rendererConstruct, rendererFieldInit,
      updateRendererSize, updateRendererScale, estimatorUpdate, clamp,
      scaleFactor, SCALE_STEPS, DURATION_DECAY, MAX_AVG_CHANGE_MS,
      LOW_FRAME_DURATION_MS, HIGH_FRAME_DURATION_MS, min_def, max_def,
      List.foldl]
  refine ⟨h, ?_⟩
  rw [h]
  norm_num

/-- C9 amended: after every render tick from the constructed state, the
average lies within the envelope spanned by the initial value 0, the reset
midpoint 22 and every delta observed so far: it is at least
`min(0, deltas)` and at most `max(22, deltas)`; it need not lie within the
observed deltas' own min/max. -/
theorem avg_within_envelope (now dpr0 : ℚ) (ts : List ℚ) :
    (deltasFrom now ts).foldl min 0 ≤
      (renderRun (ts.map fun t => (t, none, dpr0))
        (rendererConstruct now dpr0 true)).avgFrameDuration ∧
    (renderRun (ts.map fun t => (t, none, dpr0))
        (rendererConstruct now dpr0 true)).avgFrameDuration ≤
      (deltasFrom now ts).foldl max 22 := by
  have hc : (rendererConstruct now dpr0 true).canRender = true := by
    have e : (rendererConstruct now dpr0 true).canRender =
        (updateRendererSize dpr0
          { rendererFieldInit true with dpr := dpr0 }).canRender := rfl
    rw [e, updateRendererSize_canRender]
    rfl
  have hp : (rendererConstruct now dpr0 true).isPresenting = false := by
    have e : (rendererConstruct now dpr0 true).isPresenting =
        (updateRendererSize dpr0
          { rendererFieldInit true with dpr := dpr0 }).isPresenting := rfl
    rw [e, updateRendererSize_isPresenting]
    rfl
  have hmid : (HIGH_FRAME_DURATION_MS + LOW_FRAME_DURATION_MS) / 2 =
      (22 : ℚ) := by
    norm_num [HIGH_FRAME_DURATION_MS, LOW_FRAME_DURATION_MS]
  have hlt : (rendererConstruct now dpr0 true).lastTick = now := rfl
  have hav : (rendererConstruct now dpr0 true).avgFrameDuration = 0 := rfl
  refine renderRun_avg_envelope_aux dpr0 _ _ ts
    (rendererConstruct now dpr0 true) hc hp ?_ ?_ ?_ ?_ ?_
  · rw [hav]
    exact foldl_min_le _ 0
  · rw [hav]
    exact le_trans (by norm_num) (le_foldl_max _ 22)
  · rw [hmid]
    exact le_trans (foldl_min_le _ 0) (by norm_num)
  · rw [hmid]
    exact le_foldl_max _ 22
  · intro d hdm
    rw [hlt] at hdm
    exact ⟨foldl_min_le_mem _ 0 d hdm, mem_le_foldl_max _ 22 d hdm⟩

end ModelViewer
